import Mathlib

set_option maxRecDepth 100000

/-!
Verification of the docker_mirrors registry proxy (Rust) against its
natural-language specification.  The Rust sources under `src/` are shallowly
embedded below: pure string manipulation becomes Lean functions on `String`
(modelled through `List Char`), the blob-pipeline loop becomes a fuel-indexed
step function, and fallible operations return `Option`.
-/

/-! ## String helpers mirroring the Rust standard-library operations used -/

/-- Rust `str::starts_with(pat)`: `p` is a prefix of `s`. -/
def strStartsWith (s p : String) : Bool :=
  p.data.isPrefixOf s.data

/-- Rust `str::contains(pat)` for a string pattern: `p` occurs in `s`. -/
def strContains (s p : String) : Bool :=
  decide (p.data <:+: s.data)

/-- Rust `s.matches(c).count()` for a char pattern: occurrences of `c` in `s`. -/
def countChar (s : String) (c : Char) : Nat :=
  s.data.count c

/-- Core of Rust `str::split` for a non-empty string pattern: leftmost,
non-overlapping matches.  `fuel` bounds the recursion; it is always called
with `fuel = s.length`, which suffices because every step consumes at least
one character. -/
def splitOnCore (sep : List Char) : Nat → List Char → List Char → List (List Char)
  | _, acc, [] => [acc.reverse]
  | 0, acc, s => [acc.reverse ++ s]
  | fuel + 1, acc, c :: cs =>
    if sep.isPrefixOf (c :: cs) then
      acc.reverse :: splitOnCore sep fuel [] ((c :: cs).drop sep.length)
    else
      splitOnCore sep fuel (c :: acc) cs

/-- Rust `str::split(sep)` collected to a list (non-empty `sep`). -/
def rsSplit (sep s : String) : List String :=
  (splitOnCore sep.data s.data.length [] s.data).map (fun l => ⟨l⟩)

/-- Rust `str::replace(from, to)`: replace every occurrence. -/
def rsReplace (s pat rep : String) : String :=
  String.intercalate rep (rsSplit pat s)

/-! ## Path Canonicalizer (`ProxyService::format_docker_hub_path`) -/

/-- `ProxyService::format_docker_hub_path` from `src/services/proxy.rs`:
rewrites an inbound path into the `/v2/...` form Docker Hub expects. -/
def format_docker_hub_path (registry_key path : String) : String :=
  if registry_key = "v2" then
    if path = "/" then
      "/v2/"
    else
      "/v2" ++ path
  else if ¬ strStartsWith path "/v2" then
    if strStartsWith path "/library/" then
      "/v2" ++ path
    else if strStartsWith path "/" ∧ ¬ strStartsWith path "/v2/" then
      if countChar path '/' ≥ 2 then
        "/v2" ++ path
      else
        "/v2/library" ++ path
    else
      "/v2/" ++ path
  else
    path

example : format_docker_hub_path "docker" "/v2/library/nginx/manifests/latest"
    = "/v2/library/nginx/manifests/latest" := by decide
example : format_docker_hub_path "docker" "/library/nginx/manifests/latest"
    = "/v2/library/nginx/manifests/latest" := by decide
example : format_docker_hub_path "docker" "/nginx" = "/v2/library/nginx" := by decide
example : format_docker_hub_path "docker" "/bitnami/redis" = "/v2/bitnami/redis" := by decide
example : format_docker_hub_path "v2" "/" = "/v2/" := by decide
example : format_docker_hub_path "v2" "/_catalog" = "/v2/_catalog" := by decide
example : format_docker_hub_path "v2" "/v2/" = "/v2/v2/" := by decide

/-! ## Token Client (`TokenResponse`, `ProxyService::get_docker_hub_token`) -/

/-- The shape of the JSON body returned by the auth realm, before serde
decoding: each of the two fields the code names may be present or absent. -/
structure JsonTokenBody where
  token : Option String
  access_token : Option String
deriving DecidableEq

/-- `TokenResponse` from `src/services/proxy.rs`: the serde target struct.
`token : String` has no `#[serde(default)]`; `access_token : String` does. -/
structure TokenResponse where
  token : String
  access_token : String
deriving DecidableEq

/-- serde deserialization of `TokenResponse`: the `token` field is required
(no default), so a body lacking it fails to decode; `access_token` defaults
to the empty string. -/
def decodeTokenResponse (b : JsonTokenBody) : Option TokenResponse :=
  match b.token with
  | some t => some ⟨t, b.access_token.getD ""⟩
  | none => none

/-- The selection step of `ProxyService::get_docker_hub_token`: use `token`
if non-empty, else `access_token` (lines 93-99 of proxy.rs). -/
def select_token (tr : TokenResponse) : String :=
  if ¬ tr.token = "" then tr.token else tr.access_token

/-- `get_docker_hub_token` restricted to its body-processing suffix: given a
2xx response body, decode it (the `?` on `response.json()` turns a decode
failure into an error, modelled as `none`) and select the token. -/
def get_docker_hub_token_body (b : JsonTokenBody) : Option String :=
  (decodeTokenResponse b).map select_token

/-! ## Registry Table (`RegistryConfig`) and HTTP method parsing -/

/-- The built-in registry table from `RegistryConfig::default` in
`src/config/mod.rs` (HashMap modelled as an association list; the nine keys
are distinct, so `find?` agrees with HashMap lookup). -/
def default_registries : List (String × String) :=
  [("docker", "registry-1.docker.io"),
   ("quay", "quay.io"),
   ("gcr", "gcr.io"),
   ("k8s-gcr", "k8s.gcr.io"),
   ("k8s", "registry.k8s.io"),
   ("ghcr", "ghcr.io"),
   ("cloudsmith", "docker.cloudsmith.io"),
   ("nvcr", "nvcr.io"),
   ("gitlab", "registry.gitlab.com")]

/-- `RegistryConfig::get_registry_url`. -/
def get_registry_url (registry_key : String) : Option String :=
  (default_registries.find? (fun p => p.1 = registry_key)).map Prod.snd

/-- Valid bytes of an HTTP method token, per `http::Method::from_bytes`
(the function behind `Method::from_str` used at proxy.rs:141): ASCII
letters and digits plus the RFC 7230 tchar punctuation. -/
def isMethodTokenChar (c : Char) : Bool :=
  c.isAlphanum ∨ [33, 35, 36, 37, 38, 39, 42, 43, 45, 46, 94, 95, 96, 124, 126].contains c.toNat

/-- `http::Method::from_str`: succeeds on every non-empty string of token
characters (standard methods and extension methods alike); the parsed
method is kept as its text. -/
def method_from_str (s : String) : Option String :=
  if s.data ≠ [] ∧ s.data.all isMethodTokenChar then some s else none

example : method_from_str "GET" = some "GET" := by decide
example : method_from_str "OPTIONS" = some "OPTIONS" := by decide
example : method_from_str "FOO" = some "FOO" := by decide
example : method_from_str "" = none := by decide
example : method_from_str "F O" = none := by decide

/-! ## Proxy Engine: the pre-network phase of `forward_request` -/

/-- What `forward_request` decides to do before (or instead of) its first
outbound HTTP call.  `errUnsupportedRegistry` and `errUnsupportedMethod`
are the early error returns (no outbound request at all);
`sendGeneral` is the non-blob flow whose first outbound call goes to `url`;
`blobHubPreAuth` is the Docker Hub blob flow whose first outbound call is
the token request with the given scope; `blobDirect` is the non-Hub blob
flow handing `url` to the Blob Pipeline. -/
inductive Plan
  | errUnsupportedRegistry (key : String)
  | errUnsupportedMethod (method : String)
  | sendGeneral (url : String) (method : String)
  | blobHubPreAuth (url scope : String)
  | blobDirect (url : String)
deriving DecidableEq

/-- Core of Rust `str::trim_start_matches("/v2/")`: repeatedly strip the
pattern while it is a prefix.  Fuel-indexed: each strip removes four
characters, so fuel equal to the length always suffices. -/
def trimV2Core : Nat → List Char → List Char
  | 0, l => l
  | fuel + 1, l => if ("/v2/".data).isPrefixOf l then trimV2Core fuel (l.drop 4) else l

/-- Rust `s.trim_start_matches("/v2/")`. -/
def trimStartV2 (s : String) : String :=
  ⟨trimV2Core s.data.length s.data⟩

/-- Repository extraction for the blob pre-auth scope
(proxy.rs:722-736): everything before `/blobs/`, stripped of a leading
`/v2/`, defaulting to `library/redis` when empty. -/
def blob_scope_repo (formatted_path : String) : String :=
  let repo_path := trimStartV2 ((rsSplit "/blobs/" formatted_path).getD 0 "/v2/library")
  if repo_path = "" then "library/redis" else repo_path

/-- The pre-network phase of `ProxyService::forward_request`
(proxy.rs:535-585 and the dispatch at 583/716-776), in source order:
resolve the registry (the literal `v2` maps to Docker Hub, otherwise the
table, otherwise the `Unsupported registry` error), canonicalize the path
for Docker Hub targets, build the URL, compute `is_blob`, and dispatch.
The method string is parsed by `create_request_builder` only on the
non-blob path before any send. -/
def forward_plan (registry_key path : String) (query : Option String) (method : String) : Plan :=
  let registry_url? : Option String :=
    if registry_key = "v2" then some "registry-1.docker.io" else get_registry_url registry_key
  match registry_url? with
  | none => .errUnsupportedRegistry registry_key
  | some registry_url =>
    let formatted_path :=
      if registry_url = "registry-1.docker.io" then
        format_docker_hub_path registry_key path
      else path
    let url := "https://" ++ registry_url ++ formatted_path ++ query.getD ""
    let is_blob := strContains formatted_path "/blobs/"
    if ¬ is_blob then
      match method_from_str method with
      | none => .errUnsupportedMethod method
      | some m => .sendGeneral url m
    else if registry_url = "registry-1.docker.io" then
      .blobHubPreAuth url ("repository:" ++ blob_scope_repo formatted_path ++ ":pull")
    else
      .blobDirect url

/-- The error message `forward_request` returns for each early error
(proxy.rs:553 and 145). -/
def plan_error_message : Plan → Option String
  | .errUnsupportedRegistry key => some ("Unsupported registry: " ++ key)
  | .errUnsupportedMethod m => some ("Unsupported HTTP method: " ++ m)
  | _ => none

/-- The error arm of `handle_registry_request` in
`src/handlers/registry.rs:106-109`: a 500 response whose body wraps the
engine's error message. -/
def handler_error_response (e : String) : Nat × String :=
  (500, "Failed to forward request: " ++ e)

/-! ## Header Preparer (`ProxyService::prepare_headers`)

reqwest's `HeaderMap` is modelled as an association list with lowercase
keys (reqwest normalizes header names to lowercase); `insert` replaces any
existing value for the name, as reqwest's does. -/

/-- Header map: association list, lowercase keys, first binding wins. -/
def HeaderMap := List (String × String)

/-- Lookup (reqwest `HeaderMap::get`). -/
def hmGet (h : HeaderMap) (k : String) : Option String :=
  ((List.find? (fun p => p.1 = k) h)).map Prod.snd

/-- Insert-replacing (reqwest `HeaderMap::insert`). -/
def hmInsert (h : HeaderMap) (k v : String) : HeaderMap :=
  (k, v) :: List.filter (fun p => ¬ p.1 = k) h

/-- reqwest `HeaderMap::contains_key`. -/
def hmContainsKey (h : HeaderMap) (k : String) : Bool :=
  (hmGet h k).isSome

/-- `HeaderValue::from_str` succeeds on visible ASCII plus space and tab. -/
def headerValueOk (s : String) : Bool :=
  s.data.all (fun c => (32 ≤ c.toNat ∧ c.toNat ≤ 126) ∨ c.toNat = 9)

/-- The Docker-client-like User-Agent constant from proxy.rs:187. -/
def dockerUserAgent : String :=
  "docker/20.10.12 go/go1.16.12 git-commit/459d0df kernel/5.10.47 os/linux arch/amd64 UpstreamClient(Docker-Client/20.10.12 \\(linux\\))"

/-- The Accept bundle set for blob requests (proxy.rs:212). -/
def blobAccept : String :=
  "application/octet-stream, application/vnd.docker.image.rootfs.diff.tar.gzip, application/vnd.oci.image.layer.v1.tar+gzip"

/-- The default Accept bundle for manifest/API requests (proxy.rs:217). -/
def manifestAccept : String :=
  "application/json, application/vnd.docker.distribution.manifest.v2+json, application/vnd.docker.distribution.manifest.list.v2+json, application/vnd.oci.image.manifest.v1+json, application/vnd.oci.image.index.v1+json"

/-- `ProxyService::prepare_headers` (proxy.rs:169-228), in source order:
clone, set `Host` (when the value parses), set the API-version header, the
Docker-Hub-only extras, then the Accept logic: blob requests get
`blobAccept` unconditionally, others get `manifestAccept` only when no
`Accept` is already present. -/
def prepare_headers (headers : HeaderMap) (registry_url : String) (is_blob_request : Bool) : HeaderMap :=
  let h := headers
  let h := if headerValueOk registry_url then hmInsert h "host" registry_url else h
  let h := hmInsert h "docker-distribution-api-version" "registry/2.0"
  let h :=
    if registry_url = "registry-1.docker.io" then
      hmInsert (hmInsert (hmInsert (hmInsert h "user-agent" dockerUserAgent)
        "accept-encoding" "gzip") "connection" "keep-alive") "cache-control" "max-age=0"
    else h
  if is_blob_request then
    hmInsert h "accept" blobAccept
  else if ¬ hmContainsKey h "accept" then
    hmInsert h "accept" manifestAccept
  else
    h

/-! ## Blob Pipeline (`ProxyService::handle_blob_request`)

The loop at proxy.rs:273-532 is embedded as a fuel-indexed step function.
The environment is abstracted by two oracles indexed by the number of
requests sent so far from inside the loop: `resp n` is the upstream
response to the `n`-th send (status, `Location` header, if any), and
`auth n` is the combined outcome at step `n` of the 401 branch's
`WWW-Authenticate` parse + Bearer check + `get_docker_hub_token` call
(`some tok` when every stage succeeds, `none` otherwise).  A 403 response
enters the CDN fall-back sub-routine, which always returns out of the
loop, as does any other non-redirect status. -/

/-- Response abstraction for one send of the blob loop. -/
structure BlobResp where
  status : Nat
  location : Option String
deriving DecidableEq

/-- Outcome of the blob loop.  `returned` records the step at which the
loop returned a response, its status, and the redirect counter at that
point; `tooManyRedirects` is the `Too many redirects` error, recording the
counter value in its message; `outOfFuel` marks a run that did not finish
within the given fuel. -/
inductive BlobOutcome
  | returned (step status redirects : Nat)
  | tooManyRedirects (count : Nat)
  | outOfFuel
deriving DecidableEq

/-- `MAX_REDIRECTS` from proxy.rs:242. -/
def MAX_REDIRECTS : Nat := 10

/-- One-per-iteration body of the `loop` in `handle_blob_request`
(proxy.rs:273-532): a 3xx with a `Location` increments `redirect_count`,
fails when the count exceeds `MAX_REDIRECTS`, and otherwise follows; a 401
whose URL contains `registry-1.docker.io` retries with a fresh token when
the auth chain succeeds (redirect counter untouched); everything else —
including 403, whose CDN sub-routine always returns — leaves the loop. -/
def blobLoop (resp : Nat → BlobResp) (auth : Nat → Option String) :
    Nat → Nat → Nat → String → BlobOutcome
  | 0, _, _, _ => .outOfFuel
  | fuel + 1, step, redirect_count, current_url =>
    if 300 ≤ (resp step).status ∧ (resp step).status ≤ 399 then
      match (resp step).location with
      | some redirect_url =>
        if redirect_count + 1 > MAX_REDIRECTS then
          .tooManyRedirects (redirect_count + 1)
        else
          blobLoop resp auth fuel (step + 1) (redirect_count + 1) redirect_url
      | none => .returned step (resp step).status redirect_count
    else if (resp step).status = 401 ∧ strContains current_url "registry-1.docker.io" then
      match auth step with
      | some _ => blobLoop resp auth fuel (step + 1) redirect_count current_url
      | none => .returned step (resp step).status redirect_count
    else
      .returned step (resp step).status redirect_count

/-! ## CDN fall-back sub-routine (proxy.rs:371-387) -/

/-- UTF-8 byte size of a string, summed per character. -/
def utf8ByteLen (l : List Char) : Nat :=
  (l.map Char.utf8Size).sum

/-- The UTF-8 character-boundary byte offsets of a string (0, the running
sums, and the total length). -/
def utf8Boundaries : List Char → List Nat
  | [] => [0]
  | c :: cs => 0 :: (utf8Boundaries cs).map (· + c.utf8Size)

/-- `n` is a character boundary of `s` (Rust `str::is_char_boundary`). -/
def isCharBoundary (s : String) (n : Nat) : Bool :=
  (utf8Boundaries s.data).contains n

/-- Drop the characters occupying the first `n` bytes (meaningful when `n`
is a boundary, which the caller checks). -/
def dropUtf8 : List Char → Nat → List Char
  | l, 0 => l
  | [], _ + 1 => []
  | c :: cs, n + 1 =>
    if c.utf8Size ≤ n + 1 then dropUtf8 cs (n + 1 - c.utf8Size) else cs

/-- Take the characters occupying the first `n` bytes (meaningful when `n`
is a boundary, which the caller checks). -/
def takeUtf8 : List Char → Nat → List Char
  | _, 0 => []
  | [], _ + 1 => []
  | c :: cs, n + 1 =>
    if c.utf8Size ≤ n + 1 then c :: takeUtf8 cs (n + 1 - c.utf8Size) else []

/-- Rust byte-indexed string slicing `&s[a..b]`: `none` models the panic,
which occurs unless `a ≤ b` and both offsets are character boundaries (a
boundary is never past the end, so `b ≤ len` is subsumed). -/
def sliceBytes (s : String) (a b : Nat) : Option String :=
  if a ≤ b ∧ isCharBoundary s a ∧ isCharBoundary s b then
    some ⟨takeUtf8 (dropUtf8 s.data a) (b - a)⟩
  else
    none

/-- The digest the 403 branch extracts:
`current_url.split("/blobs/").nth(1)` (proxy.rs:373); `none` skips the CDN
sub-routine entirely. -/
def cdn_digest (current_url : String) : Option String :=
  (rsSplit "/blobs/" current_url).get? 1

/-- First CDN candidate (proxy.rs:377-378): slices the digest at byte
offsets `[7, 9)` — `none` models the slicing panic — and replaces `:` by
`/`. -/
def cdn_candidate1 (digest : String) : Option String :=
  (sliceBytes digest 7 9).map (fun shard =>
    "https://production.cloudflare.docker.com/registry-v2/docker/registry/v2/blobs/sha256/"
      ++ shard ++ "/" ++ rsReplace digest ":" "/" ++ "/data")

/-- The repository fragment both remaining candidates interpolate
(proxy.rs:381 and 385):
`current_url.split("/v2/").nth(1).unwrap_or("").split("/blobs/").nth(0).unwrap_or("library/redis")`. -/
def cdn_repo_extract (current_url : String) : String :=
  (rsSplit "/blobs/" ((rsSplit "/v2/" current_url).getD 1 "")).getD 0 "library/redis"

/-- Second CDN candidate (proxy.rs:380-382).  Note the format string
hardcodes `/v2/library/` before the extracted fragment. -/
def cdn_candidate2 (current_url digest : String) : String :=
  "https://registry.hub.docker.com/v2/library/" ++ cdn_repo_extract current_url
    ++ "/blobs/" ++ digest

/-- Third CDN candidate (proxy.rs:384-386), same shape on another host. -/
def cdn_candidate3 (current_url digest : String) : String :=
  "https://registry-cdn.docker.io/v2/library/" ++ cdn_repo_extract current_url
    ++ "/blobs/" ++ digest

/-! ## Docker Hub Hub-API fall-back in the general flow (proxy.rs:675-711) -/

/-- Outcome of the manifest 403 fall-back: `skip` when the path has fewer
than five `/`-separated parts (guard fails, original 403 is returned),
`panic` when `parts[5]` is read out of bounds, `attempt` with the repo and
reference used to build the Hub API URL. -/
inductive HubFallback
  | skip
  | panic
  | attempt (repo reference : String)
deriving DecidableEq

/-- The parsing step of the Hub-API fall-back (proxy.rs:680-687):
`parts = formatted_path.split('/')`, guarded by `parts.len() >= 5`, then
`repo` from `parts[2]`/`parts[3]` and `reference = parts[5]` — an index
that panics when the split has exactly five parts. -/
def manifest_hub_fallback (formatted_path : String) : HubFallback :=
  let parts := rsSplit "/" formatted_path
  if 5 ≤ parts.length then
    let repo :=
      if parts.getD 2 "" = "library" then parts.getD 3 ""
      else parts.getD 2 "" ++ "/" ++ parts.getD 3 ""
    match parts.get? 5 with
    | some reference => .attempt repo reference
    | none => .panic
  else
    .skip


/-! ## Helper lemmas -/

theorem isPrefixOf_append_self (l t : List Char) : l.isPrefixOf (l ++ t) = true := by
  induction l with
  | nil => simp [List.isPrefixOf]
  | cons c cs ih => simp [List.isPrefixOf, ih]

theorem strStartsWith_v2_append (pre s : String) (h : strStartsWith pre "/v2" = true) :
    strStartsWith (pre ++ s) "/v2" = true := by
  simp only [strStartsWith, String.data_append] at h ⊢
  obtain ⟨r, hr⟩ := List.isPrefixOf_iff_prefix.mp h
  rw [← hr, List.append_assoc]
  exact isPrefixOf_append_self _ _

/-- Every output of the canonicalizer for a non-`v2` key starts with `/v2`. -/
theorem format_starts_v2 (k p : String) (hk : ¬ k = "v2") :
    strStartsWith (format_docker_hub_path k p) "/v2" = true := by
  unfold format_docker_hub_path
  rw [if_neg hk]
  by_cases hp : strStartsWith p "/v2" = true
  · rw [if_neg (not_not_intro hp)]
    exact hp
  · rw [if_pos hp]
    split
    · exact strStartsWith_v2_append "/v2" p (by decide)
    · split
      · split
        · exact strStartsWith_v2_append "/v2" p (by decide)
        · exact strStartsWith_v2_append "/v2/library" p (by decide)
      · exact strStartsWith_v2_append "/v2/" p (by decide)

/-- A path that already starts with `/v2` passes the canonicalizer
unchanged, for every non-`v2` key. -/
theorem format_fixes_v2_paths (k q : String) (hk : ¬ k = "v2")
    (h : strStartsWith q "/v2" = true) :
    format_docker_hub_path k q = q := by
  unfold format_docker_hub_path
  rw [if_neg hk, if_neg (not_not_intro h)]

/-! ## Claim C1 — Token Client result selection -/

/-- C1, counterexample.  The claim asserts (i) a body with `access_token`
but no `token` field still yields the `access_token` value, and (ii) a
body in which both fields are empty yields an error, never a successful
empty string.  The code refutes both: serde requires the `token` field, so
`{"access_token":"abc"}` fails to decode, and `{"token":"","access_token":""}`
decodes and returns the empty string successfully. -/
theorem C1_counterexample :
    get_docker_hub_token_body ⟨none, some "abc"⟩ = none ∧
    get_docker_hub_token_body ⟨some "", some ""⟩ = some "" := by
  decide

/-- C1, amended: a successful `get_token` returns the `token` field when it
is non-empty and the `access_token` field (empty string when absent)
otherwise, but success requires the `token` field to be present — a body
lacking `token` errors even when `access_token` is present — and when both
fields are empty strings the call succeeds with the empty string. -/
theorem C1_token_selection_amended (b : JsonTokenBody) :
    get_docker_hub_token_body b =
      b.token.map (fun t => if t = "" then b.access_token.getD "" else t) := by
  cases hb : b.token with
  | none => simp [get_docker_hub_token_body, decodeTokenResponse, hb]
  | some t =>
    by_cases ht : t = "" <;>
      simp [get_docker_hub_token_body, decodeTokenResponse, select_token, hb, ht]

/-! ## Claim C3 — unsupported registry key -/

/-- C3, counterexample.  For key `unknown` the engine does stop before any
outbound request, but the 500 response's body is
`Failed to forward request: Unsupported registry: unknown` (the handler
wraps the engine error), not the exact string `Unsupported registry:
unknown` the claim states. -/
theorem C3_counterexample :
    forward_plan "unknown" "/x/y" none "GET" = .errUnsupportedRegistry "unknown" ∧
    (handler_error_response
        ((plan_error_message (Plan.errUnsupportedRegistry "unknown")).getD "")).2 =
      "Failed to forward request: Unsupported registry: unknown" ∧
    ¬ (handler_error_response
        ((plan_error_message (Plan.errUnsupportedRegistry "unknown")).getD "")).2 =
      "Unsupported registry: unknown" := by
  decide

/-- C3, amended: for every request whose registry key is neither `v2` nor
present in the table, `forward_request` stops with the unsupported-registry
error before its first outbound call, and the handler responds 500 with
body `Failed to forward request: Unsupported registry: <key>`. -/
theorem C3_unsupported_registry_amended (key path : String) (query : Option String)
    (method : String) (hk : ¬ key = "v2") (hl : get_registry_url key = none) :
    forward_plan key path query method = .errUnsupportedRegistry key ∧
    handler_error_response ((plan_error_message (Plan.errUnsupportedRegistry key)).getD "") =
      (500, "Failed to forward request: " ++ ("Unsupported registry: " ++ key)) := by
  constructor
  · simp [forward_plan, hk, hl]
  · simp [handler_error_response, plan_error_message]

/-- C3 witness at the concrete key `unknown`. -/
theorem C3_witness :
    forward_plan "unknown" "/x/y" none "GET" = .errUnsupportedRegistry "unknown" ∧
    handler_error_response
        ((plan_error_message (Plan.errUnsupportedRegistry "unknown")).getD "") =
      (500, "Failed to forward request: " ++ ("Unsupported registry: " ++ "unknown")) :=
  C3_unsupported_registry_amended "unknown" "/x/y" none "GET" (by decide) (by decide)

/-! ## Claim C4 — Path Canonicalizer idempotence -/

/-- C4, counterexample: for the literal key `v2` the canonicalizer is not
idempotent — `format("v2", "/") = "/v2/"` but applying it again yields
`"/v2/v2/"`. -/
theorem C4_counterexample :
    ¬ format_docker_hub_path "v2" (format_docker_hub_path "v2" "/")
      = format_docker_hub_path "v2" "/" := by
  decide

/-- C4, amended: the Path Canonicalizer is idempotent for every registry
key other than the literal `v2` (for `v2` a second application prepends
another `/v2`). -/
theorem C4_idempotent_amended (k p : String) (hk : ¬ k = "v2") :
    format_docker_hub_path k (format_docker_hub_path k p) = format_docker_hub_path k p :=
  format_fixes_v2_paths k _ hk (format_starts_v2 k p hk)

/-- C4 witness at the concrete key `docker` and path `/nginx`. -/
theorem C4_witness :
    format_docker_hub_path "docker" (format_docker_hub_path "docker" "/nginx")
      = format_docker_hub_path "docker" "/nginx" :=
  C4_idempotent_amended "docker" "/nginx" (by decide)

/-! ## Claim C2 — redirect cap of the Blob Pipeline -/

/-- The redirect-counter invariant of a blob-loop outcome: any returned
response carries a counter of at most `MAX_REDIRECTS`, and the
too-many-redirects error always reports `MAX_REDIRECTS + 1`. -/
def redirectCapped : BlobOutcome → Prop
  | .returned _ _ rc2 => rc2 ≤ MAX_REDIRECTS
  | .tooManyRedirects c => c = MAX_REDIRECTS + 1
  | .outOfFuel => True

theorem blobLoop_capped (resp : Nat → BlobResp) (auth : Nat → Option String) :
    ∀ fuel step rc url, rc ≤ MAX_REDIRECTS →
      redirectCapped (blobLoop resp auth fuel step rc url) := by
  intro fuel
  induction fuel with
  | zero => intro step rc url hrc; simp [blobLoop, redirectCapped]
  | succ fuel ih =>
    intro step rc url hrc
    unfold blobLoop
    split
    · split
      · split
        · rename_i hgt
          simp only [MAX_REDIRECTS] at hgt hrc ⊢
          simp only [redirectCapped, MAX_REDIRECTS]
          omega
        · rename_i hle
          simp only [MAX_REDIRECTS] at hle hrc
          exact ih (step + 1) (rc + 1) _ (by simp only [MAX_REDIRECTS]; omega)
      · simpa [redirectCapped] using hrc
    · split
      · split
        · exact ih (step + 1) rc url hrc
        · simpa [redirectCapped] using hrc
      · simpa [redirectCapped] using hrc

/-- Under an environment that answers every send with a redirect, the loop
follows exactly the allowed number of hops and then fails. -/
theorem blobLoop_all_redirects (resp : Nat → BlobResp) (auth : Nat → Option String)
    (hall : ∀ n, (300 ≤ (resp n).status ∧ (resp n).status ≤ 399) ∧
      ∃ u, (resp n).location = some u) :
    ∀ j fuel step rc url, rc + j = MAX_REDIRECTS → j + 1 ≤ fuel →
      blobLoop resp auth fuel step rc url = .tooManyRedirects (MAX_REDIRECTS + 1) := by
  intro j
  induction j with
  | zero =>
    intro fuel step rc url hj hf
    obtain ⟨f, rfl⟩ : ∃ f, fuel = f + 1 := ⟨fuel - 1, by omega⟩
    unfold blobLoop
    rw [if_pos (hall step).1]
    obtain ⟨u, hu⟩ := (hall step).2
    simp only [hu]
    rw [if_pos (by simp only [MAX_REDIRECTS] at hj ⊢; omega)]
    have h1 : rc + 1 = MAX_REDIRECTS + 1 := by simp only [MAX_REDIRECTS] at hj ⊢; omega
    rw [h1]
  | succ j ihj =>
    intro fuel step rc url hj hf
    obtain ⟨f, rfl⟩ : ∃ f, fuel = f + 1 := ⟨fuel - 1, by omega⟩
    unfold blobLoop
    rw [if_pos (hall step).1]
    obtain ⟨u, hu⟩ := (hall step).2
    simp only [hu]
    rw [if_neg (by simp only [MAX_REDIRECTS] at hj ⊢; omega)]
    exact ihj f (step + 1) (rc + 1) u (by omega) (by omega)

/-- C2: per inbound blob request the pipeline follows at most
`MAX_REDIRECTS = 10` redirect hops.  (1) A returned response never carries
a redirect counter above 10; (2) the too-many-redirects error fires
exactly at counter 11, i.e. after the 10th followed `Location`; (3) under
an all-redirect environment the loop fails with `Too many redirects (11)`
as soon as the 11th redirect response arrives, for any remaining fuel —
the 11th `Location` is never followed; (4) a 401-triggered token retry
re-enters the loop with the redirect counter unchanged (it neither
consumes nor resets redirect slots). -/
theorem C2_redirect_cap (resp : Nat → BlobResp) (auth : Nat → Option String) :
    (∀ fuel step url s st rc2,
        blobLoop resp auth fuel step 0 url = .returned s st rc2 → rc2 ≤ MAX_REDIRECTS) ∧
    (∀ fuel step url c,
        blobLoop resp auth fuel step 0 url = .tooManyRedirects c → c = MAX_REDIRECTS + 1) ∧
    ((∀ n, (300 ≤ (resp n).status ∧ (resp n).status ≤ 399) ∧
        ∃ u, (resp n).location = some u) →
      ∀ fuel url, MAX_REDIRECTS + 1 ≤ fuel →
        blobLoop resp auth fuel 0 0 url = .tooManyRedirects (MAX_REDIRECTS + 1)) ∧
    (∀ fuel step rc url, (resp step).status = 401 →
      strContains url "registry-1.docker.io" = true → (auth step).isSome →
      blobLoop resp auth (fuel + 1) step rc url = blobLoop resp auth fuel (step + 1) rc url) := by
  refine ⟨?_, ?_, ?_, ?_⟩
  · intro fuel step url s st rc2 h
    have hc := blobLoop_capped resp auth fuel step 0 url (by simp [MAX_REDIRECTS])
    rw [h] at hc
    exact hc
  · intro fuel step url c h
    have hc := blobLoop_capped resp auth fuel step 0 url (by simp [MAX_REDIRECTS])
    rw [h] at hc
    exact hc
  · intro hall fuel url hf
    exact blobLoop_all_redirects resp auth hall MAX_REDIRECTS fuel 0 0 url (by omega) hf
  · intro fuel step rc url h401 hhub hauth
    conv_lhs => unfold blobLoop
    rw [if_neg (by rw [h401]; decide), if_pos ⟨h401, hhub⟩]
    obtain ⟨t, ht⟩ := Option.isSome_iff_exists.mp hauth
    simp only [ht]

/-- C2 witness: a concrete all-redirect environment fails with the
too-many-redirects error carrying count 11 when given fuel 12. -/
theorem C2_witness :
    blobLoop (fun _ => ⟨307, some "u"⟩) (fun _ => none) 12 0 0 "x"
      = .tooManyRedirects (MAX_REDIRECTS + 1) :=
  (C2_redirect_cap (fun _ => ⟨307, some "u"⟩) (fun _ => none)).2.2.1
    (fun _ => ⟨⟨by decide, by decide⟩, ⟨"u", rfl⟩⟩) 12 "x" (by decide)

/-! ## Claim C10 — unbounded 401 retries in the Blob Pipeline -/

/-- C10: the Blob Pipeline puts no bound on 401-triggered retries.  When
the current URL contains `registry-1.docker.io` and the environment
answers every send with a 401 whose Bearer challenge parses and whose
token request succeeds (the `auth` oracle returns a token at every step),
the loop re-sends forever: for every fuel the run exhausts its fuel (first
conjunct), each iteration steps to the next send with the redirect counter
unchanged (second conjunct). -/
theorem C10_unbounded_401_retries (resp : Nat → BlobResp) (auth : Nat → Option String)
    (url : String) (hhub : strContains url "registry-1.docker.io" = true)
    (h401 : ∀ n, (resp n).status = 401) (hauth : ∀ n, (auth n).isSome) :
    (∀ fuel step rc, blobLoop resp auth fuel step rc url = .outOfFuel) ∧
    (∀ fuel step rc,
      blobLoop resp auth (fuel + 1) step rc url = blobLoop resp auth fuel (step + 1) rc url) := by
  have hstep : ∀ fuel step rc,
      blobLoop resp auth (fuel + 1) step rc url = blobLoop resp auth fuel (step + 1) rc url := by
    intro fuel step rc
    conv_lhs => unfold blobLoop
    rw [if_neg (by rw [h401 step]; decide), if_pos ⟨h401 step, hhub⟩]
    obtain ⟨t, ht⟩ := Option.isSome_iff_exists.mp (hauth step)
    simp only [ht]
  refine ⟨?_, hstep⟩
  intro fuel
  induction fuel with
  | zero => intro step rc; rfl
  | succ fuel ih =>
    intro step rc
    rw [hstep fuel step rc]
    exact ih (step + 1) rc

/-- C10 witness: a concrete always-401 Docker Hub environment with an
always-successful token oracle exhausts any concrete fuel. -/
theorem C10_witness :
    blobLoop (fun _ => ⟨401, none⟩) (fun _ => some "t") 7 0 0
      "https://registry-1.docker.io/v2/library/redis/blobs/sha256:x" = .outOfFuel :=
  (C10_unbounded_401_retries (fun _ => ⟨401, none⟩) (fun _ => some "t")
    "https://registry-1.docker.io/v2/library/redis/blobs/sha256:x"
    (by decide) (fun _ => rfl) (fun _ => rfl)).1 7 0 0

/-! ## Claim C5 — CDN fall-back candidate URLs 2 and 3 -/

theorem splitOnCore_of_not_infix (sep : List Char) :
    ∀ s fuel acc, ¬ (sep <:+: s) → splitOnCore sep fuel acc s = [acc.reverse ++ s] := by
  intro s
  induction s with
  | nil =>
    intro fuel acc h
    cases fuel <;> simp [splitOnCore]
  | cons c cs ih =>
    intro fuel acc h
    cases fuel with
    | zero => simp [splitOnCore]
    | succ fuel =>
      have hpre : ¬ (sep.isPrefixOf (c :: cs) = true) := by
        intro hp
        exact h ( List.isPrefixOf_iff_prefix.mp hp).isInfix
      have hcs : ¬ (sep <:+: cs) := by
        rintro ⟨u, v, huv⟩
        exact h ⟨c :: u, v, by rw [← huv]; simp⟩
      unfold splitOnCore
      rw [if_neg hpre, ih fuel (c :: acc) hcs]
      simp

/-- When the separator does not occur in the string, Rust `split` yields
the whole string as its only piece. -/
theorem rsSplit_of_not_contains (sep s : String) (h : strContains s sep = false) :
    rsSplit sep s = [s] := by
  have h2 : ¬ (sep.data <:+: s.data) := by
    simpa [strContains] using h
  simp [rsSplit, splitOnCore_of_not_infix sep.data s.data _ _ h2]

/-- The repository fragment as the claim (and spec §4.7) describes it: the
portion of the URL between `/v2/` and `/blobs/`, with `library/redis`
substituted whenever the extraction yields nothing.  Definition follows
the claim's words, for comparison with the code's extraction. -/
def claimed_repo (current_url : String) : String :=
  let r := (rsSplit "/blobs/" ((rsSplit "/v2/" current_url).getD 1 "")).getD 0 ""
  if r = "" then "library/redis" else r

/-- Candidate URL 2 as the claim states it. -/
def claimed_candidate2 (current_url digest : String) : String :=
  "https://registry.hub.docker.com/v2/" ++ claimed_repo current_url ++ "/blobs/" ++ digest

/-- Candidate URL 3 as the claim states it. -/
def claimed_candidate3 (current_url digest : String) : String :=
  "https://registry-cdn.docker.io/v2/" ++ claimed_repo current_url ++ "/blobs/" ++ digest

/-- C5, counterexample.  For the reachable blob URL
`https://registry-1.docker.io/v2/library/redis/blobs/sha256:ab` the code's
candidate 2 interpolates the extracted fragment after a hardcoded
`/v2/library/`, producing a doubled `library/library/redis`, which differs
from the claim's `https://registry.hub.docker.com/v2/library/redis/...`;
and for a URL with no `/v2/` the code's fragment is the empty string, not
`library/redis`, so candidate 2 differs from the claim's there too. -/
theorem C5_counterexample :
    cdn_candidate2 "https://registry-1.docker.io/v2/library/redis/blobs/sha256:ab" "sha256:ab"
      = "https://registry.hub.docker.com/v2/library/library/redis/blobs/sha256:ab" ∧
    claimed_candidate2 "https://registry-1.docker.io/v2/library/redis/blobs/sha256:ab" "sha256:ab"
      = "https://registry.hub.docker.com/v2/library/redis/blobs/sha256:ab" ∧
    ¬ cdn_candidate2 "https://registry-1.docker.io/v2/library/redis/blobs/sha256:ab" "sha256:ab"
      = claimed_candidate2 "https://registry-1.docker.io/v2/library/redis/blobs/sha256:ab"
          "sha256:ab" ∧
    cdn_candidate2 "https://example.com/x" "sha256:ab"
      = "https://registry.hub.docker.com/v2/library//blobs/sha256:ab" ∧
    ¬ cdn_candidate2 "https://example.com/x" "sha256:ab"
      = claimed_candidate2 "https://example.com/x" "sha256:ab" := by
  refine ⟨by decide, by decide, by decide, by decide, by decide⟩

/-- C5, amended: candidates 2 and 3 are
`https://registry.hub.docker.com/v2/library/<x>/blobs/<digest>` and
`https://registry-cdn.docker.io/v2/library/<x>/blobs/<digest>`, where `<x>`
is the first `/v2/`-delimited segment of the current URL truncated at
`/blobs/` — interpolated after a hardcoded `/v2/library/` — and `<x>` is
the empty string (never `library/redis`) whenever the URL contains no
`/v2/`. -/
theorem C5_cdn_candidates_amended (current_url digest : String) :
    cdn_candidate2 current_url digest
      = "https://registry.hub.docker.com/v2/library/" ++ cdn_repo_extract current_url
          ++ "/blobs/" ++ digest ∧
    cdn_candidate3 current_url digest
      = "https://registry-cdn.docker.io/v2/library/" ++ cdn_repo_extract current_url
          ++ "/blobs/" ++ digest ∧
    (strContains current_url "/v2/" = false → cdn_repo_extract current_url = "") := by
  refine ⟨rfl, rfl, ?_⟩
  intro h
  rw [cdn_repo_extract, rsSplit_of_not_contains "/v2/" current_url h]
  have h1 : ([current_url].getD 1 "") = "" := rfl
  rw [h1]
  decide

/-- C5 witness at a URL containing no `/v2/`. -/
theorem C5_witness :
    cdn_candidate2 "https://example.com/x" "d"
      = "https://registry.hub.docker.com/v2/library/" ++ cdn_repo_extract "https://example.com/x"
          ++ "/blobs/" ++ "d" ∧
    cdn_repo_extract "https://example.com/x" = "" :=
  ⟨(C5_cdn_candidates_amended "https://example.com/x" "d").1,
   (C5_cdn_candidates_amended "https://example.com/x" "d").2.2 (by decide)⟩

/-! ## Claim C6 — Accept header preparation -/

theorem hmGet_hmInsert_same (h : HeaderMap) (k v : String) :
    hmGet (hmInsert h k v) k = some v := by
  simp [hmGet, hmInsert, List.find?]

theorem find?_key_filter_ne (l : List (String × String)) (k k2 : String) (hne : ¬ k = k2) :
    (l.filter (fun p => ¬ p.1 = k)).find? (fun p => p.1 = k2)
      = l.find? (fun p => p.1 = k2) := by
  rw [List.find?_filter]
  congr 1
  funext a
  by_cases ha : a.1 = k2
  · have hak : ¬ a.1 = k := fun hh => hne (hh.symm.trans ha)
    have hak2 : ¬ k2 = k := fun hh => hne hh.symm
    simp [ha, hak, hak2]
  · simp [ha]

theorem hmGet_hmInsert_ne (h : HeaderMap) (k v k2 : String) (hne : ¬ k = k2) :
    hmGet (hmInsert h k v) k2 = hmGet h k2 := by
  simp only [hmGet, hmInsert]
  rw [List.find?_cons_of_neg _ (by simp [hne]), find?_key_filter_ne h k k2 hne]

theorem hmGet_accept_insert_host (h : HeaderMap) (v : String) :
    hmGet (hmInsert h "host" v) "accept" = hmGet h "accept" :=
  hmGet_hmInsert_ne h "host" v "accept" (by decide)

theorem hmGet_accept_insert_apiver (h : HeaderMap) (v : String) :
    hmGet (hmInsert h "docker-distribution-api-version" v) "accept" = hmGet h "accept" :=
  hmGet_hmInsert_ne h "docker-distribution-api-version" v "accept" (by decide)

theorem hmGet_accept_insert_ua (h : HeaderMap) (v : String) :
    hmGet (hmInsert h "user-agent" v) "accept" = hmGet h "accept" :=
  hmGet_hmInsert_ne h "user-agent" v "accept" (by decide)

theorem hmGet_accept_insert_ae (h : HeaderMap) (v : String) :
    hmGet (hmInsert h "accept-encoding" v) "accept" = hmGet h "accept" :=
  hmGet_hmInsert_ne h "accept-encoding" v "accept" (by decide)

theorem hmGet_accept_insert_conn (h : HeaderMap) (v : String) :
    hmGet (hmInsert h "connection" v) "accept" = hmGet h "accept" :=
  hmGet_hmInsert_ne h "connection" v "accept" (by decide)

theorem hmGet_accept_insert_cc (h : HeaderMap) (v : String) :
    hmGet (hmInsert h "cache-control" v) "accept" = hmGet h "accept" :=
  hmGet_hmInsert_ne h "cache-control" v "accept" (by decide)

/-- C6, counterexample: for a non-blob request whose inbound headers carry
`Accept: text/html`, the prepared headers keep `text/html` — the inbound
value is not overwritten and the output `Accept` is neither of the two
fixed bundles. -/
theorem C6_counterexample :
    hmGet (prepare_headers [("accept", "text/html")] "quay.io" false) "accept"
      = some "text/html" ∧
    ¬ "text/html" = blobAccept ∧ ¬ "text/html" = manifestAccept := by
  refine ⟨by decide, by decide, by decide⟩

/-- C6, amended: for every inbound header set and upstream host, a blob
request's prepared `Accept` is exactly the blob bundle, overwriting any
inbound value; a non-blob request's prepared `Accept` is the inbound
`Accept` when one is present and the manifest/API bundle only otherwise. -/
theorem C6_accept_header_amended (h : HeaderMap) (host : String) :
    hmGet (prepare_headers h host true) "accept" = some blobAccept ∧
    hmGet (prepare_headers h host false) "accept"
      = some ((hmGet h "accept").getD manifestAccept) := by
  constructor
  · by_cases hv : headerValueOk host = true <;> by_cases hb : host = "registry-1.docker.io" <;>
      simp [prepare_headers, hv, hb, hmGet_hmInsert_same]
  · by_cases hb : host = "registry-1.docker.io"
    · subst hb
      have hv : headerValueOk "registry-1.docker.io" = true := by decide
      cases hacc : hmGet h "accept" with
      | none =>
        simp [prepare_headers, hv, hmContainsKey, hmGet_accept_insert_host,
          hmGet_accept_insert_apiver, hmGet_accept_insert_ua, hmGet_accept_insert_ae,
          hmGet_accept_insert_conn, hmGet_accept_insert_cc, hacc, hmGet_hmInsert_same]
      | some v =>
        simp [prepare_headers, hv, hmContainsKey, hmGet_accept_insert_host,
          hmGet_accept_insert_apiver, hmGet_accept_insert_ua, hmGet_accept_insert_ae,
          hmGet_accept_insert_conn, hmGet_accept_insert_cc, hacc, hmGet_hmInsert_same]
    · by_cases hv : headerValueOk host = true
      · cases hacc : hmGet h "accept" with
        | none =>
          simp [prepare_headers, hv, hb, hmContainsKey, hmGet_accept_insert_host,
            hmGet_accept_insert_apiver, hacc, hmGet_hmInsert_same]
        | some v =>
          simp [prepare_headers, hv, hb, hmContainsKey, hmGet_accept_insert_host,
            hmGet_accept_insert_apiver, hacc, hmGet_hmInsert_same]
      · cases hacc : hmGet h "accept" with
        | none =>
          simp [prepare_headers, hv, hb, hmContainsKey, hmGet_accept_insert_apiver,
            hacc, hmGet_hmInsert_same]
        | some v =>
          simp [prepare_headers, hv, hb, hmContainsKey, hmGet_accept_insert_apiver,
            hacc, hmGet_hmInsert_same]

/-! ## Claim C7 — supported HTTP methods -/

theorem method_from_str_some (s t : String) (h : method_from_str s = some t) : t = s := by
  unfold method_from_str at h
  split at h
  · cases h; rfl
  · cases h

/-- C7, counterexample: the verbs `OPTIONS` and `FOO` are outside the
claimed supported set, yet the engine accepts them (reqwest's
`Method::from_str` parses any HTTP token, extension methods included) and
dispatches the request — no method-not-supported error, and an outbound
request is issued. -/
theorem C7_counterexample :
    forward_plan "docker" "/library/nginx/manifests/latest" none "OPTIONS"
      = .sendGeneral "https://registry-1.docker.io/v2/library/nginx/manifests/latest" "OPTIONS" ∧
    ¬ forward_plan "docker" "/library/nginx/manifests/latest" none "OPTIONS"
      = .errUnsupportedMethod "OPTIONS" ∧
    forward_plan "docker" "/library/nginx/manifests/latest" none "FOO"
      = .sendGeneral "https://registry-1.docker.io/v2/library/nginx/manifests/latest" "FOO" := by
  refine ⟨by decide, by decide, by decide⟩

/-- C7, amended: for a resolvable registry key and a non-blob path, the
engine fails with the method-not-supported error exactly when the method
string is not a valid HTTP token (empty, or containing a non-token byte) —
in which case it errors before any outbound request — while every valid
token, including verbs outside {GET, POST, PUT, DELETE, HEAD, PATCH} such
as OPTIONS or FOO, is accepted and forwarded. -/
theorem C7_method_support_amended (registry_key path : String) (query : Option String)
    (method host : String)
    (hres : (if registry_key = "v2" then some "registry-1.docker.io"
      else get_registry_url registry_key) = some host)
    (hnb : strContains (if host = "registry-1.docker.io"
      then format_docker_hub_path registry_key path else path) "/blobs/" = false) :
    (forward_plan registry_key path query method = .errUnsupportedMethod method
      ↔ method_from_str method = none) ∧
    (method_from_str method = some method →
      forward_plan registry_key path query method =
        .sendGeneral ("https://" ++ host ++ (if host = "registry-1.docker.io"
          then format_docker_hub_path registry_key path else path) ++ query.getD "") method) := by
  cases hm : method_from_str method with
  | none =>
    refine ⟨⟨fun _ => rfl, fun _ => ?_⟩, fun hcontra => nomatch hcontra⟩
    simp [forward_plan, hres, hnb, hm]
  | some m =>
    have hme : m = method := method_from_str_some method m hm
    subst hme
    constructor
    · constructor
      · intro hplan
        simp [forward_plan, hres, hnb, hm] at hplan
      · intro hcontra
        cases hcontra
    · intro _
      simp [forward_plan, hres, hnb, hm]

/-- C7 witness: an invalid method token (the empty string) on a non-blob
request to a table registry produces the method-not-supported error. -/
theorem C7_witness :
    forward_plan "quay" "/x/y" none "" = .errUnsupportedMethod "" :=
  (C7_method_support_amended "quay" "/x/y" none "" "quay.io" (by decide) (by decide)).1.mpr
    (by decide)

/-! ## Claim C8 — byte-slice panic in CDN candidate 1 -/

theorem mem_utf8Boundaries_le (l : List Char) (n : Nat) (h : n ∈ utf8Boundaries l) :
    n ≤ utf8ByteLen l := by
  induction l generalizing n with
  | nil =>
    simp [utf8Boundaries] at h
    simp [h, utf8ByteLen]
  | cons c cs ih =>
    simp only [utf8Boundaries, List.mem_cons, List.mem_map] at h
    rcases h with rfl | ⟨m, hm, rfl⟩
    · exact Nat.zero_le _
    · have := ih m hm
      simp only [utf8ByteLen, List.map_cons, List.sum_cons] at *
      omega

/-- C8: the CDN fall-back's first candidate construction is not total.
First conjunct: for every digest (the suffix of the current URL after
`/blobs/`) whose UTF-8 byte length is below 9, or whose byte offset 7 or 9
is not a character boundary, the byte slice `&digest[7..9]` panics, so no
candidate-1 URL is produced.  Remaining conjuncts: a reachable
one-character digest exhibits the panic, while a well-formed
`sha256:`-digest of length ≥ 9 produces the documented Cloudflare URL. -/
theorem C8_cdn_candidate1_partial :
    (∀ digest : String,
      utf8ByteLen digest.data < 9 ∨ isCharBoundary digest 7 = false ∨
        isCharBoundary digest 9 = false →
      cdn_candidate1 digest = none) ∧
    cdn_digest "https://registry-1.docker.io/v2/library/redis/blobs/x" = some "x" ∧
    cdn_candidate1 "x" = none ∧
    cdn_candidate1 "sha256:0123456789abcdef"
      = some "https://production.cloudflare.docker.com/registry-v2/docker/registry/v2/blobs/sha256/01/sha256/0123456789abcdef/data" := by
  refine ⟨?_, by decide, by decide, by decide⟩
  intro digest h
  have hguard : ¬ (7 ≤ 9 ∧ isCharBoundary digest 7 = true ∧ isCharBoundary digest 9 = true) := by
    rcases h with h | h | h
    · rintro ⟨-, -, h9⟩
      have h2 := mem_utf8Boundaries_le digest.data 9 (by simpa [isCharBoundary] using h9)
      omega
    · rintro ⟨-, h7, -⟩
      rw [h] at h7
      cases h7
    · rintro ⟨-, -, h9⟩
      rw [h] at h9
      cases h9
  unfold cdn_candidate1 sliceBytes
  rw [if_neg hguard]
  rfl

/-- C8 witness: the one-byte digest `x`, reachable from the blob URL
`.../blobs/x`, makes the slice panic. -/
theorem C8_witness : cdn_candidate1 "x" = none :=
  C8_cdn_candidate1_partial.1 "x" (Or.inl (by decide))

/-! ## Claim C9 — out-of-bounds index in the Hub-API manifest fall-back -/

/-- C9: the Hub-API fall-back guards the `'/'`-split of the canonical path
with `parts.len() >= 5` but reads `parts[5]`.  First conjunct: every path
splitting into exactly five parts drives it to the out-of-bounds panic.
Remaining conjuncts: the canonical path `/v2/redis/manifests/latest` —
reachable from inbound path `/redis/manifests/latest` on key `docker` —
contains `/manifests/`, is not a blob path, splits into five parts, and
panics. -/
theorem C9_manifest_fallback_panics :
    (∀ p : String, (rsSplit "/" p).length = 5 → manifest_hub_fallback p = .panic) ∧
    format_docker_hub_path "docker" "/redis/manifests/latest" = "/v2/redis/manifests/latest" ∧
    strContains "/v2/redis/manifests/latest" "/manifests/" = true ∧
    strContains "/v2/redis/manifests/latest" "/blobs/" = false ∧
    (rsSplit "/" "/v2/redis/manifests/latest").length = 5 ∧
    manifest_hub_fallback "/v2/redis/manifests/latest" = .panic := by
  refine ⟨?_, by decide, by decide, by decide, by decide, by decide⟩
  intro p hp
  unfold manifest_hub_fallback
  rw [if_pos (by omega)]
  have h5 : (rsSplit "/" p).get? 5 = none := List.get?_eq_none.mpr (by omega)
  simp only [h5]

/-- C9 witness at the reachable canonical path. -/
theorem C9_witness : manifest_hub_fallback "/v2/redis/manifests/latest" = .panic :=
  C9_manifest_fallback_panics.1 "/v2/redis/manifests/latest" (by decide)
